import Mathlib

/-!
Shallow embedding of the PDF extraction pipeline of `src/pdf_extractor.py`
(class `PDFExtractor`).  External collaborators (pdfplumber, pdf2image,
pytesseract, cv2) are modelled by the data they hand the pipeline:

* a `PDFPage` carries what `page.extract_text()` returns (`Option String`:
  `none` models Python's `None`) and what `page.extract_tables()` returns
  (a list of raw tables, each a list of raw rows, a raw row being `none`
  for a null row or a list of optional cell strings);
* a `PDFFile` carries the outcome of `pdfplumber.open` (`Except`: an
  `error` models the call raising) and the outcome of the whole
  rasterize-plus-OCR input, `convert_from_path` plus
  `pytesseract.image_to_string` per page (`Except String (List String)`:
  `ok texts` is the raw recognized text of each rasterized page, `error`
  models any exception inside the `try` of `_extract_text_scanned`);
* an `FSEntry` is what a path resolves to: `absent` when
  `Path(pdf_path).exists()` is false, otherwise `file f`.

Python exceptions are explicit `Except` values; a `try/except` block is a
`match` on the `Except` its body produces.  Python string operations are
given structurally recursive definitions over `String.data` so that they
evaluate inside the kernel: `strip` is `str.strip()` (whitespace being
space, tab, carriage return, newline), `splitLines` is `str.split('\n')`
and `joinWith` is `sep.join(...)`.
-/

namespace PdfExtractor

/-- Python `str.strip()`: drop leading and trailing whitespace. -/
def strip (s : String) : String :=
  ⟨((s.data.dropWhile Char.isWhitespace).reverse.dropWhile Char.isWhitespace).reverse⟩

/-- Python `str.split('\n')` over the character list: `""` yields `[""]`,
a trailing newline yields a trailing empty piece. -/
def splitLinesAux : List Char → List Char → List (List Char)
  | [], acc => [acc.reverse]
  | c :: cs, acc =>
    if c = '\n' then acc.reverse :: splitLinesAux cs []
    else splitLinesAux cs (c :: acc)

/-- Python `text.split('\n')`. -/
def splitLines (s : String) : List String :=
  (splitLinesAux s.data []).map fun cs => ⟨cs⟩

/-- Python `sep.join(pieces)`. -/
def joinWith (sep : String) : List String → String
  | [] => ""
  | [s] => s
  | s :: s2 :: rest => s ++ sep ++ joinWith sep (s2 :: rest)

/-- A raw table row as the layout engine reports it: `none` for a null
row, otherwise the list of optional cell strings. -/
abbrev RawRow := Option (List (Option String))

/-- A raw table candidate: the rows the layout engine reports. -/
abbrev RawTable := List RawRow

/-- A cleaned table as returned to the caller: rows of plain strings. -/
abbrev Table := List (List String)

/-- One page as the digital parsing library exposes it. -/
structure PDFPage where
  text : Option String
  tables : List RawTable

/-- An opened document: its ordered pages. -/
structure PDFDoc where
  pages : List PDFPage

/-- A PDF file on disk, described by the outcomes of the two external
capabilities the pipeline consults. -/
structure PDFFile where
  open_result : Except String PDFDoc
  ocr_result : Except String (List String)

/-- What a filesystem path resolves to. -/
inductive FSEntry where
  | absent : FSEntry
  | file : PDFFile → FSEntry

/-- The pipeline instance state: the `_extraction_mode` attribute
(line 45 of the source initializes it to `"unknown"`). -/
structure ExtractorState where
  extraction_mode : String

/-- `self._extraction_mode = 'unknown'` at construction (line 45). -/
def initState : ExtractorState := ⟨"unknown"⟩

/-- `get_extraction_mode` (lines 50-52). -/
def get_extraction_mode (st : ExtractorState) : String := st.extraction_mode

/-- A `try` body that produced `body`, with an `except` clause returning
`fallback`: the caller always receives an `ok` value. -/
def handled {α : Type} (body : Except String α) (fallback : α) : Except String α :=
  match body with
  | Except.ok a => Except.ok a
  | Except.error _ => Except.ok fallback

/-- The value the `try/except` hands back. -/
def catchWith {α : Type} (body : Except String α) (fallback : α) : α :=
  match body with
  | Except.ok a => a
  | Except.error _ => fallback

/-- `_detect_pdf_type` (lines 124-140): zero pages means scanned; first
page text truthy (`if text and ...`) with stripped length strictly over
50 means digital; otherwise scanned; any exception is caught and means
scanned. -/
def detect_pdf_type (f : PDFFile) : String :=
  match f.open_result with
  | Except.error _ => "scanned"
  | Except.ok pdf =>
    match pdf.pages with
    | [] => "scanned"
    | first_page :: _ =>
      match first_page.text with
      | none => "scanned"
      | some text =>
        if text ≠ "" ∧ 50 < (strip text).length then "digital" else "scanned"

/-- The page loop of `_extract_text_digital` (lines 146-150): collect the
truthy page texts (`if text: all_text.append(text)`), in page order. -/
def collectDigitalTexts : List PDFPage → List String
  | [] => []
  | page :: rest =>
    match page.text with
    | none => collectDigitalTexts rest
    | some text =>
      if text = "" then collectDigitalTexts rest
      else text :: collectDigitalTexts rest

/-- `_extract_text_digital` (lines 142-152): `"\n".join(all_text)`. -/
def extract_text_digital (pdf : PDFDoc) : String :=
  joinWith "\n" (collectDigitalTexts pdf.pages)

/-- The OCR post-processing of one page (lines 167-168): split into
lines, strip each, drop lines that strip to nothing, rejoin with
`'\n'`. -/
def cleanOCRText (text : String) : String :=
  joinWith "\n"
    ((splitLines text).filterMap fun line =>
      if strip line = "" then none else some (strip line))

/-- The page loop of `_extract_text_scanned` (lines 160-170): every
rasterized page appends its cleaned text, unconditionally. -/
def collectScannedTexts : List String → List String
  | [] => []
  | text :: rest => cleanOCRText text :: collectScannedTexts rest

/-- `_extract_text_scanned` (lines 154-175): on success join the
per-page cleaned texts with `'\n\n'`; any exception in the `try` yields
the sentinel string (line 175, spelling exactly as in the source). -/
def extract_text_scanned (f : PDFFile) : String :=
  match f.ocr_result with
  | Except.ok page_texts => joinWith "\n\n" (collectScannedTexts page_texts)
  | Except.error _ => "OCR Functionaliy Not Available On This Platform"

/-- Cell cleaning (line 188): `cell.strip() if cell else ""` — a null or
empty cell becomes `""`, any other cell is stripped in place. -/
def cleanCell (cell : Option String) : String :=
  match cell with
  | none => ""
  | some s => if s = "" then "" else strip s

/-- One step of the row loop of `_extract_tables_digital` (lines
185-189): a falsy row (`None` or `[]`) is skipped, a truthy row is kept
with each cell cleaned in place. -/
def cleanRowOpt (row : RawRow) : Option (List String) :=
  match row with
  | none => none
  | some cells =>
    if cells = [] then none else some (cells.map cleanCell)

/-- The row loop of `_extract_tables_digital` over one candidate table. -/
def cleanTable (table : RawTable) : List (List String) :=
  table.filterMap cleanRowOpt

/-- `if cleaned_table: all_tables.append(cleaned_table)` (lines
191-192): a table whose cleaned form is empty is discarded. -/
def keepTable (table : RawTable) : Option Table :=
  if cleanTable table = [] then none else some (cleanTable table)

/-- The per-page part of `_extract_tables_digital` (lines 182-193):
`if tables:` guards the loop over the page's candidate tables. -/
def pageTables (page : PDFPage) : List Table :=
  if page.tables = [] then []
  else page.tables.filterMap keepTable

/-- `_extract_tables_digital` (lines 177-194): surviving tables across
all pages, in page order then in-page order, as one flat list. -/
def extract_tables_digital (pdf : PDFDoc) : List Table :=
  (pdf.pages.map pageTables).flatten

/-- The body of the `try` of `extract_text` (lines 69-80): classify,
then dispatch.  The digital branch reopens the file with pdfplumber, so
an open failure there escapes to the top handler; the scanned branch
handles its own failures internally. -/
def textAttempt (f : PDFFile) : Except String String :=
  if detect_pdf_type f = "digital" then
    Except.map extract_text_digital f.open_result
  else
    Except.ok (extract_text_scanned f)

/-- The body of the `try` of `extract_tables` (lines 104-118). -/
def tablesAttempt (f : PDFFile) : Except String (List Table) :=
  if detect_pdf_type f = "digital" then
    Except.map extract_tables_digital f.open_result
  else
    Except.ok []

/-- `extract_text` (lines 54-84) with the exception flow explicit: an
`error` result would mean an exception reaching the caller.  A missing
file returns `""` (line 67); the `except` clause (lines 82-84) maps any
escaped exception to `""`. -/
def extract_textE (entry : FSEntry) : Except String String :=
  match entry with
  | FSEntry.absent => Except.ok ""
  | FSEntry.file f => handled (textAttempt f) ""

/-- The string `extract_text` hands the caller. -/
def extract_text (entry : FSEntry) : String :=
  match entry with
  | FSEntry.absent => ""
  | FSEntry.file f => catchWith (textAttempt f) ""

/-- `extract_tables` (lines 86-122) with the exception flow explicit: a
missing file returns `[]` (line 102); the scanned branch returns `[]`
(line 118); the `except` clause (lines 120-122) maps any escaped
exception to `[]`. -/
def extract_tablesE (entry : FSEntry) : Except String (List Table) :=
  match entry with
  | FSEntry.absent => Except.ok []
  | FSEntry.file f => handled (tablesAttempt f) []

/-- The list `extract_tables` hands the caller. -/
def extract_tables (entry : FSEntry) : List Table :=
  match entry with
  | FSEntry.absent => []
  | FSEntry.file f => catchWith (tablesAttempt f) []

/-- `extract_text` including its effect on `_extraction_mode`: on a
missing file the state is untouched (early return, line 67); otherwise
line 71 executes `self._extraction_mode = pdf_path` — the PATH argument,
exactly as the source writes it — right after classification, and the
state keeps that value whether the body succeeds or the handler fires. -/
def extract_text_run (pdf_path : String) (entry : FSEntry) (st : ExtractorState) :
    String × ExtractorState :=
  match entry with
  | FSEntry.absent => ("", st)
  | FSEntry.file f =>
    (catchWith (textAttempt f) "", { extraction_mode := pdf_path })

/-- `extract_tables` including its effect on `_extraction_mode`: on a
missing file the state is untouched (early return, line 102); otherwise
line 106 executes `self._extraction_mode = pdf_type`. -/
def extract_tables_run (pdf_path : String) (entry : FSEntry) (st : ExtractorState) :
    List Table × ExtractorState :=
  match entry with
  | FSEntry.absent => ([], st)
  | FSEntry.file f =>
    (catchWith (tablesAttempt f) [], { extraction_mode := detect_pdf_type f })

/-- Joining two strings. -/
theorem joinWith_pair (sep a b : String) :
    joinWith sep [a, b] = a ++ sep ++ b := rfl

/-- Joining three strings. -/
theorem joinWith_triple (sep a b c : String) :
    joinWith sep [a, b, c] = a ++ sep ++ (b ++ sep ++ c) := rfl

/-- The two classification outcomes are distinct strings. -/
theorem scanned_ne_digital : ("scanned" : String) ≠ "digital" := by decide

/-- `handled` always yields an `ok` value. -/
theorem handled_ok {α : Type} (body : Except String α) (fallback : α) :
    ∃ a, handled body fallback = Except.ok a := by
  cases body with
  | ok a => exact ⟨a, rfl⟩
  | error e => exact ⟨fallback, rfl⟩

/-- Claim C1: classification looks only at the first page: it is always
`digital` or `scanned`; it is `digital` exactly when the document opens,
has a first page, that page's extracted text exists and its stripped
length strictly exceeds 50; in particular an open failure or a zero-page
document classifies as `scanned`, and no exception escapes. -/
theorem c1_first_page_classification (f : PDFFile) :
    (detect_pdf_type f = "digital" ∨ detect_pdf_type f = "scanned") ∧
    (detect_pdf_type f = "digital" ↔
      ∃ pdf first_page rest text,
        f.open_result = Except.ok pdf ∧
        pdf.pages = first_page :: rest ∧
        first_page.text = some text ∧
        50 < (strip text).length) ∧
    (∀ err, f.open_result = Except.error err → detect_pdf_type f = "scanned") ∧
    (∀ pdf, f.open_result = Except.ok pdf → pdf.pages = [] →
        detect_pdf_type f = "scanned") := by
  obtain ⟨o, r⟩ := f
  cases o with
  | error e =>
    refine ⟨Or.inr rfl, ?_, fun _ _ => rfl, ?_⟩
    · constructor
      · intro h
        exact absurd h scanned_ne_digital
      · rintro ⟨pdf, fp, rest, t, hok, -, -, -⟩
        exact Except.noConfusion hok
    · intro pdf h
      exact Except.noConfusion h
  | ok pdf =>
    obtain ⟨pages⟩ := pdf
    cases pages with
    | nil =>
      refine ⟨Or.inr rfl, ?_, ?_, fun _ _ _ => rfl⟩
      · constructor
        · intro h
          exact absurd h scanned_ne_digital
        · rintro ⟨pdf2, fp, rest, t, hok, hpages, -, -⟩
          cases hok
          exact List.noConfusion hpages
      · intro err h
        exact Except.noConfusion h
    | cons first_page rest =>
      obtain ⟨ptext, ptables⟩ := first_page
      cases ptext with
      | none =>
        refine ⟨Or.inr rfl, ?_, ?_, ?_⟩
        · constructor
          · intro h
            exact absurd h scanned_ne_digital
          · rintro ⟨pdf2, fp, rest2, t, hok, hpages, htext2, -⟩
            cases hok
            cases hpages
            exact Option.noConfusion htext2
        · intro err h
          exact Except.noConfusion h
        · intro pdf2 h hnil
          cases h
          exact List.noConfusion hnil
      | some t =>
        have hd : detect_pdf_type
            ⟨Except.ok ⟨⟨some t, ptables⟩ :: rest⟩, r⟩ =
            if t ≠ "" ∧ 50 < (strip t).length then "digital" else "scanned" := rfl
        by_cases hc : t ≠ "" ∧ 50 < (strip t).length
        · rw [hd, if_pos hc]
          refine ⟨Or.inl rfl, ?_, ?_, ?_⟩
          · constructor
            · intro _
              exact ⟨⟨⟨some t, ptables⟩ :: rest⟩, ⟨some t, ptables⟩, rest, t,
                rfl, rfl, rfl, hc.2⟩
            · intro _
              rfl
          · intro err h
            exact Except.noConfusion h
          · intro pdf2 h hnil
            cases h
            exact List.noConfusion hnil
        · rw [hd, if_neg hc]
          refine ⟨Or.inr rfl, ?_, ?_, ?_⟩
          · constructor
            · intro h
              exact absurd h scanned_ne_digital
            · rintro ⟨pdf2, fp, rest2, u, hok, hpages, htext2, hlen⟩
              cases hok
              cases hpages
              cases htext2
              exfalso
              apply hc
              refine ⟨?_, hlen⟩
              intro hempty
              rw [hempty] at hlen
              exact absurd hlen (by decide)
          · intro err h
            exact Except.noConfusion h
          · intro pdf2 h hnil
            cases h
            exact List.noConfusion hnil

/-- Claim C2: for every input entry — missing path, unreadable file,
well-formed file — both public operations produce an `ok` value of their
declared result type; the explicit exception flow never reaches the
caller, and the value handed back is exactly that `ok` payload. -/
theorem c2_never_raises (entry : FSEntry) :
    (∃ text, extract_textE entry = Except.ok text ∧ extract_text entry = text) ∧
    (∃ tables, extract_tablesE entry = Except.ok tables ∧
      extract_tables entry = tables) := by
  cases entry with
  | absent => exact ⟨⟨"", rfl, rfl⟩, ⟨[], rfl, rfl⟩⟩
  | file f =>
    constructor
    · cases hb : textAttempt f with
      | ok t =>
        exact ⟨t, by simp [extract_textE, handled, hb],
          by simp [extract_text, catchWith, hb]⟩
      | error e =>
        exact ⟨"", by simp [extract_textE, handled, hb],
          by simp [extract_text, catchWith, hb]⟩
    · cases hb : tablesAttempt f with
      | ok t =>
        exact ⟨t, by simp [extract_tablesE, handled, hb],
          by simp [extract_tables, catchWith, hb]⟩
      | error e =>
        exact ⟨[], by simp [extract_tablesE, handled, hb],
          by simp [extract_tables, catchWith, hb]⟩

/-- Claim C3: if the rasterize-plus-OCR stage fails for any reason on
the scanned path, `extract_text` returns exactly the sentinel string —
spelling as in the source — with no partial transcript and no
exception. -/
theorem c3_ocr_failure_sentinel (f : PDFFile) (err : String)
    (hscanned : detect_pdf_type f = "scanned")
    (hocr : f.ocr_result = Except.error err) :
    extract_textE (FSEntry.file f) =
      Except.ok "OCR Functionaliy Not Available On This Platform" ∧
    extract_text (FSEntry.file f) =
      "OCR Functionaliy Not Available On This Platform" := by
  have hnd : ¬ detect_pdf_type f = "digital" := by
    rw [hscanned]
    exact scanned_ne_digital
  have hs : extract_text_scanned f =
      "OCR Functionaliy Not Available On This Platform" := by
    unfold extract_text_scanned
    rw [hocr]
  have ha : textAttempt f =
      Except.ok "OCR Functionaliy Not Available On This Platform" := by
    unfold textAttempt
    rw [if_neg hnd, hs]
  exact ⟨by simp [extract_textE, handled, ha],
    by simp [extract_text, catchWith, ha]⟩

/-- Witness for C3: a zero-page file whose OCR toolchain raises. -/
theorem c3_ocr_failure_sentinel_witness :
    extract_textE (FSEntry.file ⟨Except.ok ⟨[]⟩, Except.error "poppler missing"⟩) =
      Except.ok "OCR Functionaliy Not Available On This Platform" ∧
    extract_text (FSEntry.file ⟨Except.ok ⟨[]⟩, Except.error "poppler missing"⟩) =
      "OCR Functionaliy Not Available On This Platform" :=
  c3_ocr_failure_sentinel ⟨Except.ok ⟨[]⟩, Except.error "poppler missing"⟩
    "poppler missing" rfl rfl

/-- Claim C4: a document that classifies as scanned yields no tables:
`extract_tables` hands back the empty list and no exception escapes. -/
theorem c4_scanned_no_tables (f : PDFFile)
    (hscanned : detect_pdf_type f = "scanned") :
    extract_tablesE (FSEntry.file f) = Except.ok [] ∧
    extract_tables (FSEntry.file f) = [] := by
  have hnd : ¬ detect_pdf_type f = "digital" := by
    rw [hscanned]
    exact scanned_ne_digital
  have ha : tablesAttempt f = Except.ok [] := by
    unfold tablesAttempt
    rw [if_neg hnd]
  exact ⟨by simp [extract_tablesE, handled, ha],
    by simp [extract_tables, catchWith, ha]⟩

/-- Witness for C4: a zero-page file (which classifies as scanned). -/
theorem c4_scanned_no_tables_witness :
    extract_tablesE (FSEntry.file ⟨Except.ok ⟨[]⟩, Except.ok []⟩) = Except.ok [] ∧
    extract_tables (FSEntry.file ⟨Except.ok ⟨[]⟩, Except.ok []⟩) = [] :=
  c4_scanned_no_tables ⟨Except.ok ⟨[]⟩, Except.ok []⟩ rfl

/-- Claim C5, evaluated against the code: line 71 of the source stores
the PATH string (`self._extraction_mode = pdf_path`), not the
classification, during `extract_text` on an existing file, while
`extract_tables` (line 106) stores the classification.  On the path
`"invoice.pdf"` the recorded mode is `"invoice.pdf"`, which is none of
`digital`, `scanned`, `unknown`. -/
theorem c5_extract_text_mode_is_path :
    (extract_text_run "invoice.pdf"
        (FSEntry.file ⟨Except.ok ⟨[]⟩, Except.error "no ocr"⟩)
        initState).2.extraction_mode = "invoice.pdf" ∧
    ("invoice.pdf" ≠ "digital" ∧ "invoice.pdf" ≠ "scanned" ∧
      "invoice.pdf" ≠ "unknown") ∧
    (extract_tables_run "invoice.pdf"
        (FSEntry.file ⟨Except.ok ⟨[]⟩, Except.error "no ocr"⟩)
        initState).2.extraction_mode = "scanned" :=
  ⟨rfl, by decide, rfl⟩

/-- Claim C6: page joining: the digital path joins the truthy page texts
with a single newline `'\n'`, skipping a page whose extracted text is
null; the scanned path joins the per-page cleaned OCR texts with a blank
line `'\n\n'`. -/
theorem c6_join_separators (p q blank : PDFPage) (t u : String) (f : PDFFile)
    (r1 r2 : String)
    (hp : p.text = some t) (ht : t ≠ "")
    (hq : q.text = some u) (hu : u ≠ "")
    (hblank : blank.text = none)
    (hocr : f.ocr_result = Except.ok [r1, r2]) :
    extract_text_digital ⟨[p, q]⟩ = t ++ "\n" ++ u ∧
    extract_text_digital ⟨[p, blank, q]⟩ = t ++ "\n" ++ u ∧
    extract_text_scanned f = cleanOCRText r1 ++ "\n\n" ++ cleanOCRText r2 := by
  have hcol : collectDigitalTexts [p, q] = [t, u] := by
    simp [collectDigitalTexts, hp, hq, ht, hu]
  have hcol2 : collectDigitalTexts [p, blank, q] = [t, u] := by
    simp [collectDigitalTexts, hp, hq, hblank, ht, hu]
  refine ⟨?_, ?_, ?_⟩
  · show joinWith "\n" (collectDigitalTexts [p, q]) = t ++ "\n" ++ u
    rw [hcol]
    exact joinWith_pair "\n" t u
  · show joinWith "\n" (collectDigitalTexts [p, blank, q]) = t ++ "\n" ++ u
    rw [hcol2]
    exact joinWith_pair "\n" t u
  · unfold extract_text_scanned
    rw [hocr]
    exact joinWith_pair "\n\n" (cleanOCRText r1) (cleanOCRText r2)

/-- Witness for C6 at concrete two-page fixtures. -/
theorem c6_join_separators_witness :
    extract_text_digital ⟨[⟨some "alpha", []⟩, ⟨some "beta", []⟩]⟩ =
      "alpha" ++ "\n" ++ "beta" ∧
    extract_text_digital ⟨[⟨some "alpha", []⟩, ⟨none, []⟩, ⟨some "beta", []⟩]⟩ =
      "alpha" ++ "\n" ++ "beta" ∧
    extract_text_scanned ⟨Except.error "corrupt", Except.ok [" one ", "two"]⟩ =
      cleanOCRText " one " ++ "\n\n" ++ cleanOCRText "two" :=
  c6_join_separators ⟨some "alpha", []⟩ ⟨some "beta", []⟩ ⟨none, []⟩
    "alpha" "beta" ⟨Except.error "corrupt", Except.ok [" one ", "two"]⟩
    " one " "two" rfl (by decide) rfl (by decide) rfl rfl

/-- Claim C7: a path that resolves to no file makes `extract_text`
return `""` and `extract_tables` return `[]`, with no exception and with
the pipeline state — hence the recorded mode — untouched: no
classification is attempted. -/
theorem c7_missing_file_fallbacks (pdf_path : String) (st : ExtractorState) :
    extract_text_run pdf_path FSEntry.absent st = ("", st) ∧
    extract_tables_run pdf_path FSEntry.absent st = ([], st) ∧
    extract_textE FSEntry.absent = Except.ok "" ∧
    extract_tablesE FSEntry.absent = Except.ok [] :=
  ⟨rfl, rfl, rfl, rfl⟩

/-- Claim C8: every table handed back by the digital table path is
nonempty, and each of its rows is exactly the cell-wise cleaning of a
truthy source row — so cell positions are preserved, a null cell becomes
`""`, and every other cell is stripped. -/
theorem c8_table_cell_invariants (pdf : PDFDoc) (table : Table)
    (h : table ∈ extract_tables_digital pdf) :
    table ≠ [] ∧
    (∀ row ∈ table, ∃ cells : List (Option String),
        cells ≠ [] ∧ row = cells.map cleanCell ∧ row.length = cells.length) ∧
    cleanCell none = "" ∧
    (∀ s, cleanCell (some s) = if s = "" then "" else strip s) := by
  unfold extract_tables_digital at h
  rw [List.mem_flatten] at h
  obtain ⟨l, hl, hmem⟩ := h
  rw [List.mem_map] at hl
  obtain ⟨page, hpage, rfl⟩ := hl
  unfold pageTables at hmem
  by_cases hnil : page.tables = []
  · rw [if_pos hnil] at hmem
    exact absurd hmem (List.not_mem_nil _)
  · rw [if_neg hnil] at hmem
    rw [List.mem_filterMap] at hmem
    obtain ⟨raw, hraw, hsome⟩ := hmem
    unfold keepTable at hsome
    by_cases hct : cleanTable raw = []
    · rw [if_pos hct] at hsome
      exact Option.noConfusion hsome
    · rw [if_neg hct] at hsome
      cases hsome
      refine ⟨hct, ?_, rfl, fun s => rfl⟩
      intro row hrow
      unfold cleanTable at hrow
      rw [List.mem_filterMap] at hrow
      obtain ⟨r0, hr0, hr0some⟩ := hrow
      cases r0 with
      | none => exact Option.noConfusion hr0some
      | some cells =>
        have heq : cleanRowOpt (some cells) =
            if cells = [] then none else some (cells.map cleanCell) := rfl
        rw [heq] at hr0some
        by_cases hc : cells = []
        · rw [if_pos hc] at hr0some
          exact Option.noConfusion hr0some
        · rw [if_neg hc] at hr0some
          cases hr0some
          exact ⟨cells, hc, rfl, List.length_map cells cleanCell⟩

/-- A one-page document with one table: a stripped cell and a null
cell. -/
def c8_sample_pdf : PDFDoc := ⟨[⟨none, [[some [some " a ", none]]]⟩]⟩

/-- Witness for C8: the sample document yields the single table
`[["a", ""]]` and the invariants hold there. -/
theorem c8_table_cell_invariants_witness :
    ([["a", ""]] : Table) ≠ [] ∧
    (∀ row ∈ ([["a", ""]] : Table), ∃ cells : List (Option String),
        cells ≠ [] ∧ row = cells.map cleanCell ∧ row.length = cells.length) ∧
    cleanCell none = "" ∧
    (∀ s, cleanCell (some s) = if s = "" then "" else strip s) :=
  c8_table_cell_invariants c8_sample_pdf [["a", ""]] (by decide)

/-- Claim C9: during table cleaning a null row or an absent (empty) row
is dropped entirely wherever it sits, while a truthy row survives with
its cells cleaned in place. -/
theorem c9_null_rows_dropped (pre post : RawTable) (cells : List (Option String)) :
    cleanTable (pre ++ none :: post) = cleanTable (pre ++ post) ∧
    cleanTable (pre ++ some [] :: post) = cleanTable (pre ++ post) ∧
    (cells ≠ [] → cleanTable (pre ++ some cells :: post) =
      cleanTable pre ++ cells.map cleanCell :: cleanTable post) := by
  unfold cleanTable
  refine ⟨?_, ?_, fun hc => ?_⟩ <;>
    simp [List.filterMap_append, List.filterMap_cons, cleanRowOpt, *]

/-- Claim C10: on the scanned path every rasterized page contributes one
entry to the join even when its recognized text cleans to nothing, so a
textless page leaves an empty segment between the `'\n\n'` separators —
unlike the digital path, which omits a page whose text is empty. -/
theorem c10_scanned_pages_always_contribute (f : PDFFile) (r1 r3 : String)
    (hocr : f.ocr_result = Except.ok [r1, "", r3])
    (p z q : PDFPage) (t u : String)
    (hp : p.text = some t) (ht : t ≠ "")
    (hz : z.text = some "")
    (hq : q.text = some u) (hu : u ≠ "") :
    extract_text_scanned f =
      cleanOCRText r1 ++ "\n\n" ++ ("" ++ "\n\n" ++ cleanOCRText r3) ∧
    (∀ page_texts, (collectScannedTexts page_texts).length = page_texts.length) ∧
    extract_text_digital ⟨[p, z, q]⟩ = t ++ "\n" ++ u := by
  refine ⟨?_, ?_, ?_⟩
  · unfold extract_text_scanned
    rw [hocr]
    exact joinWith_triple "\n\n" (cleanOCRText r1) "" (cleanOCRText r3)
  · intro page_texts
    induction page_texts with
    | nil => rfl
    | cons a rest ih => simp [collectScannedTexts, ih]
  · have hcol : collectDigitalTexts [p, z, q] = [t, u] := by
      simp [collectDigitalTexts, hp, hz, hq, ht, hu]
    show joinWith "\n" (collectDigitalTexts [p, z, q]) = t ++ "\n" ++ u
    rw [hcol]
    exact joinWith_pair "\n" t u

/-- Witness for C10: a three-page scan whose middle page recognizes to
whitespace only, and a three-page digital fixture whose middle page has
empty text. -/
theorem c10_scanned_pages_always_contribute_witness :
    extract_text_scanned ⟨Except.error "corrupt", Except.ok ["one", "", "three"]⟩ =
      cleanOCRText "one" ++ "\n\n" ++ ("" ++ "\n\n" ++ cleanOCRText "three") ∧
    (∀ page_texts, (collectScannedTexts page_texts).length = page_texts.length) ∧
    extract_text_digital ⟨[⟨some "alpha", []⟩, ⟨some "", []⟩, ⟨some "beta", []⟩]⟩ =
      "alpha" ++ "\n" ++ "beta" :=
  c10_scanned_pages_always_contribute
    ⟨Except.error "corrupt", Except.ok ["one", "", "three"]⟩ "one" "three" rfl
    ⟨some "alpha", []⟩ ⟨some "", []⟩ ⟨some "beta", []⟩ "alpha" "beta"
    rfl (by decide) rfl rfl (by decide)

end PdfExtractor
